import Mathlib

/-!
Verification development for the tdlib-rs repository: a shallow embedding of
the code generator (tdlib-rs-gen: src/lib.rs, src/types.rs, src/functions.rs)
and of the request/response correlation runtime (tdlib-rs: src/lib.rs),
together with proofs about them.

Parts of the repository referenced by the four source files but not present in
them (the tdlib_rs_parser definition records, rustifier.rs, metadata.rs,
enums.rs, observer.rs, tdjson.rs) are modelled from the specification; each
such definition says so in its doc comment.
-/

/-- Schema definition category, from tdlib_rs_parser ty module: a definition is
either a type (data shape) or a function (callable operation). -/
inductive Category where
  | Types
  | Functions
deriving DecidableEq

/-- Modelled from the spec: the tdlib_rs_parser type reference (not under src).
The spec describes it as a name plus an optional generic argument; the claims
only inspect the head name, so the generic argument is recorded by its name. -/
structure Ty where
  name : String
  generic_arg : Option String
deriving DecidableEq

/-- Modelled from the spec: a tdlib_rs_parser parameter record (not under src):
name, type reference, optionality flag, restricted flag, documentation string.
The restricted flag models rustifier::parameters::is_for_bots_only. -/
structure Parameter where
  name : String
  ty : Ty
  is_optional : Bool
  is_for_bots_only : Bool
  description : String
deriving DecidableEq

/-- Modelled from the spec: a tdlib_rs_parser definition record (not under
src): unique name, category, result type reference (self type for a Type,
return type for a Function), ordered parameters, documentation, restricted
flag. The restricted flag models rustifier::definitions::is_for_bots_only. -/
structure Definition where
  name : String
  category : Category
  ty : Ty
  params : List Parameter
  description : String
  is_for_bots_only : Bool
deriving DecidableEq

/-- GeneratorConfig from tdlib-rs-gen/src/lib.rs: configuration options for
code generation. -/
structure GeneratorConfig where
  gen_bots_only_api : Bool
  use_shared_string : Bool
deriving DecidableEq

/-- SPECIAL_CASED_TYPES from tdlib-rs-gen/src/lib.rs: definitions of these
types are "core" types and get no generated struct. -/
def SPECIAL_CASED_TYPES : List String := ["Bool", "Bytes", "Int32", "Int53", "Int64", "Ok"]

/-- ignore_type from tdlib-rs-gen/src/lib.rs. -/
def ignore_type (ty : Ty) : Bool :=
  SPECIAL_CASED_TYPES.any (fun x => x == ty.name)

/-- Modelled from the spec: rustifier::definitions::type_name (rustifier.rs is
not under src). Per the decoding policy and Scenario D (an operation returning
Chat stores expected-type name "Chat"), it names the definition's result
type. -/
def definitions_type_name (d : Definition) : String := d.ty.name

/-- Modelled from the spec: rustifier::types::is_ok (rustifier.rs is not under
src). The spec's sentinel unit / "no value" type is Ok (Scenario B: an
operation returning Ok is the unit-returning case). -/
def is_ok (ty : Ty) : Bool := ty.name == "Ok"

/-! ## Metadata analyzer (modelled from the spec)

The file tdlib-rs-gen/src/metadata.rs is not under src; only its caller
(types.rs line 49, `metadata.can_def_implement_default(def)`) is. The
analyzer below is modelled from spec section 4.2: a graph walk over the
"non-optional field refers to type" relation keeping an in-progress set;
entering a type already in progress (a cycle) yields false; a built-in scalar
or the unit type is trivially true; an optional field never blocks
derivability; a type with zero fields is trivially true. Termination on
arbitrary (also cyclic) definition sets is by well-founded recursion: each
step moves one further definition into the in-progress set. -/

/-- Modelled from the spec: the built-in scalars plus the unit type, which are
trivially default-derivable (spec 4.2). -/
def builtinDefaultNames : List String := ["Bool", "Bytes", "Int32", "Int53", "Int64", "Ok"]

/-- Number of definitions not yet in the in-progress set; the termination
measure of the derivability walk. -/
def remainingTypes (defs : List Definition) (inProgress : List String) : Nat :=
  (defs.filter (fun d => !(inProgress.contains d.name))).length

/-- Filtering by a stronger predicate yields a list no longer than filtering by
a weaker one. -/
theorem length_filter_le_of_imp {α : Type} (l : List α) (p q : α → Bool)
    (himp : ∀ x, q x = true → p x = true) :
    (l.filter q).length ≤ (l.filter p).length := by
  induction l with
  | nil => simp
  | cons b t ih =>
      cases hq : q b with
      | true =>
          have hp := himp b hq
          simpa [List.filter_cons, hq, hp] using Nat.succ_le_succ ih
      | false =>
          cases hp : p b with
          | true =>
              simp only [List.filter_cons, hq, hp]
              simpa using Nat.le_succ_of_le ih
          | false => simpa [List.filter_cons, hq, hp] using ih

/-- Filtering by a strictly stronger predicate that loses a member of the list
yields a strictly shorter list. -/
theorem length_filter_lt_of_mem {α : Type} (l : List α) (p q : α → Bool)
    (himp : ∀ x, q x = true → p x = true)
    (a : α) (ha : a ∈ l) (hpa : p a = true) (hqa : q a = false) :
    (l.filter q).length < (l.filter p).length := by
  induction l with
  | nil => cases ha
  | cons b t ih =>
      rcases List.mem_cons.mp ha with h | hat
      · subst h
        simp only [List.filter_cons, hqa, hpa]
        simpa using Nat.lt_succ_of_le (length_filter_le_of_imp t p q himp)
      · cases hqb : q b with
        | true =>
            have hpb := himp b hqb
            simpa [List.filter_cons, hqb, hpb] using Nat.succ_lt_succ (ih hat)
        | false =>
            cases hpb : p b with
            | true =>
                simp only [List.filter_cons, hqb, hpb]
                simpa using Nat.lt_succ_of_lt (ih hat)
            | false => simpa [List.filter_cons, hqb, hpb] using ih hat

/-- Marking one further definition as in progress strictly shrinks the set of
remaining definitions. -/
theorem remainingTypes_lt (defs : List Definition) (inProgress : List String)
    (d : Definition) (hd : d ∈ defs)
    (hnotin : inProgress.contains d.name = false) :
    remainingTypes defs (d.name :: inProgress) < remainingTypes defs inProgress := by
  have himp : ∀ x : Definition,
      (!((d.name :: inProgress).contains x.name)) = true →
      (!(inProgress.contains x.name)) = true := by
    intro x hx
    simp only [List.contains_cons, Bool.not_eq_true', Bool.or_eq_false_iff] at hx
    simp only [hx.2, Bool.not_false]
  exact length_filter_lt_of_mem defs _ _ himp d hd
    (by simp only [hnotin, Bool.not_false]) (by simp [List.contains_cons])

mutual

/-- Modelled from the spec: whether the type named `n` is default-derivable,
given the in-progress set of the memoizing walk (spec 4.2): built-in scalars
and the unit type are trivially derivable; a type already in progress (a
cycle) is not; otherwise look the definition up and require every parameter
to be unblocking. An unresolvable reference is treated as not derivable. -/
def can_type_default (defs : List Definition) (inProgress : List String) (n : String) : Bool :=
  if hb : builtinDefaultNames.contains n then true
  else if hip : inProgress.contains n then false
  else
    match hf : defs.find? (fun d => d.name == n) with
    | none => false
    | some d => can_params_default defs (n :: inProgress) d.params
termination_by (remainingTypes defs inProgress, 0)
decreasing_by
  simp_wf
  have hdn : d.name = n := by simpa using List.find?_some hf
  have hmem := List.mem_of_find?_eq_some hf
  have hnotin : inProgress.contains d.name = false := by
    rw [hdn]
    simpa using hip
  exact Prod.Lex.left _ _ (hdn ▸ remainingTypes_lt defs inProgress d hmem hnotin)

/-- Modelled from the spec: every parameter in the list is unblocking for
default-derivability — it is optional, or its own type is derivable
(spec 4.2: an optional field never blocks; zero fields are trivially true). -/
def can_params_default (defs : List Definition) (inProgress : List String)
    (ps : List Parameter) : Bool :=
  match ps with
  | [] => true
  | p :: rest =>
      (p.is_optional || can_type_default defs inProgress p.ty.name) &&
        can_params_default defs inProgress rest
termination_by (remainingTypes defs inProgress, ps.length + 1)
decreasing_by
  · simp_wf
    exact Prod.Lex.right _ (by omega)
  · simp_wf
    exact Prod.Lex.right _ (by omega)

end

/-- Metadata from tdlib-rs-gen/src/metadata.rs (not under src), modelled from
the spec: derived, read-only facts computed from the full definition set. The
model keeps the definition list and answers default-derivability queries with
the walk above; the memoization of the original is a cache of the same
function and does not change its value. -/
structure Metadata where
  defs : List Definition

/-- Metadata::new, the one-shot analysis pass over all definitions. -/
def Metadata.new (definitions : List Definition) : Metadata :=
  ⟨definitions⟩

/-- Modelled from the spec: Metadata::can_def_implement_default (metadata.rs is
not under src; types.rs line 49 is its caller): true when every parameter of
the definition is optional or has a default-derivable type, with the
definition itself marked in progress so a self reference is a cycle. -/
def Metadata.can_def_implement_default (m : Metadata) (d : Definition) : Bool :=
  can_params_default m.defs [d.name] d.params

/-! ## Structure Emitter (tdlib-rs-gen/src/types.rs)

The emitters below return the generated artifacts as structured records, one
field per datum the Rust code writes, in the order the source writes them.
Pieces that depend on the missing rustifier.rs (attribute-name casing, type
qualification, serde annotations) are recorded by the schema names they are
computed from. -/

/-- Parameters kept by write_struct's field loop (types.rs lines 60 to 63): a
parameter is skipped exactly when it is restricted and the capability is
disabled. -/
def struct_included_params (d : Definition) (config : GeneratorConfig) : List Parameter :=
  d.params.filter (fun p => !(p.is_for_bots_only && !config.gen_bots_only_api))

/-- Parameters omitted by write_struct's field loop (types.rs lines 60 to
63). -/
def struct_omitted_params (d : Definition) (config : GeneratorConfig) : List Parameter :=
  d.params.filter (fun p => p.is_for_bots_only && !config.gen_bots_only_api)

/-- Parameters kept by write_function's signature loop (functions.rs lines 63
to 64); the same condition also guards the documentation loop (lines 40
to 41). -/
def signature_included_params (d : Definition) (config : GeneratorConfig) : List Parameter :=
  d.params.filter (fun p => !(p.is_for_bots_only && !config.gen_bots_only_api))

/-- Parameters omitted by write_function's signature loop (functions.rs lines
63 to 64). -/
def signature_omitted_params (d : Definition) (config : GeneratorConfig) : List Parameter :=
  d.params.filter (fun p => p.is_for_bots_only && !config.gen_bots_only_api)

/-- Parameters kept by write_function's payload-construction loop
(functions.rs lines 95 to 106). -/
def payload_included_params (d : Definition) (config : GeneratorConfig) : List Parameter :=
  d.params.filter (fun p => !(p.is_for_bots_only && !config.gen_bots_only_api))

/-- Parameters omitted by write_function's payload-construction loop
(functions.rs lines 95 to 96). -/
def payload_omitted_params (d : Definition) (config : GeneratorConfig) : List Parameter :=
  d.params.filter (fun p => p.is_for_bots_only && !config.gen_bots_only_api)

/-- One emitted struct field (types.rs lines 60 to 98): attribute name and
type are produced by rustifier from the schema parameter, recorded here by the
parameter's schema data; the optional flag records the Option wrapper. -/
structure EmittedField where
  name : String
  tyName : String
  optional : Bool
deriving DecidableEq

/-- One emitted struct declaration (types.rs write_struct): which definition
produced it, the emitted type name, whether the derive list contains Default
(line 49 to 51), and its fields in order. -/
structure EmittedStruct where
  sourceName : String
  name : String
  derivesDefault : Bool
  fields : List EmittedField
deriving DecidableEq

/-- write_struct from tdlib-rs-gen/src/types.rs: returns none when the
definition is restricted and the capability is disabled (lines 33 to 35, the
early return), otherwise the struct declaration. The derive list always has
Clone, Debug, PartialEq, Deserialize, Serialize; Default is added exactly when
the metadata marks the definition default-derivable (lines 48 to 52). -/
def write_struct (d : Definition) (m : Metadata) (config : GeneratorConfig) :
    Option EmittedStruct :=
  if d.is_for_bots_only && !config.gen_bots_only_api then none
  else some
    { sourceName := d.name
      name := definitions_type_name d
      derivesDefault := m.can_def_implement_default d
      fields := (struct_included_params d config).map
        (fun p => ⟨p.name, p.ty.name, p.is_optional⟩) }

/-- write_types_mod from tdlib-rs-gen/src/types.rs: emits one struct per
definition of category Types whose type is not special-cased and which has at
least one parameter (lines 131 to 137). -/
def write_types_mod (defs : List Definition) (m : Metadata) (config : GeneratorConfig) :
    List EmittedStruct :=
  ((defs.filter (fun d =>
      d.category == Category.Types && !(ignore_type d.ty) && !d.params.isEmpty)).filterMap
    (fun d => write_struct d m config))

/-! ## Operation Emitter (tdlib-rs-gen/src/functions.rs) -/

/-- The decoding policy a generated operation body applies to the raw response
text, as emitted by write_function (functions.rs lines 115 to 134): operations
whose result type is Ok only check for an API error; all others carry the
expected type name for the deserialization-error case. -/
inductive ResponseHandler where
  | unitReturn
  | nonUnitReturn (expectedTypeName : String)
deriving DecidableEq

/-- The response handler write_function emits for a definition (functions.rs
line 115 to 116: the branch on rustifier::types::is_ok, and the
return_type_name bound from rustifier::definitions::type_name). -/
def response_handler_of (d : Definition) : ResponseHandler :=
  if is_ok d.ty then ResponseHandler.unitReturn
  else ResponseHandler.nonUnitReturn (definitions_type_name d)

/-- One emitted operation (functions.rs write_function): the source definition
name (also the payload's reserved discriminator value, line 94), the call
signature's parameters in order, the payload entries in order (key = schema
field name), and the response decoding policy of the body. -/
structure EmittedFunction where
  sourceName : String
  signatureParams : List EmittedField
  payloadEntries : List (String × String)
  handler : ResponseHandler
deriving DecidableEq

/-- write_function from tdlib-rs-gen/src/functions.rs: returns none when the
definition is restricted and the capability is disabled (lines 32 to 34),
otherwise the operation with filtered signature (lines 63 to 84), the payload
with the reserved discriminator entry first and one entry per included
parameter (lines 93 to 107), and the body's decoding policy (lines 115 to
134). -/
def write_function (d : Definition) (_m : Metadata) (config : GeneratorConfig) :
    Option EmittedFunction :=
  if d.is_for_bots_only && !config.gen_bots_only_api then none
  else some
    { sourceName := d.name
      signatureParams := (signature_included_params d config).map
        (fun p => ⟨p.name, p.ty.name, p.is_optional⟩)
      payloadEntries := ("@type", d.name) ::
        (payload_included_params d config).map (fun p => (p.name, p.name))
      handler := response_handler_of d }

/-- write_functions_mod from tdlib-rs-gen/src/functions.rs: emits one operation
per definition of category Functions (lines 167 to 173). -/
def write_functions_mod (defs : List Definition) (m : Metadata) (config : GeneratorConfig) :
    List EmittedFunction :=
  ((defs.filter (fun d => d.category == Category.Functions)).filterMap
    (fun d => write_function d m config))

/-! ## Error taxonomy and response decoding (tdlib-rs/src/lib.rs and the code
write_function emits) -/

/-- types::Error, the TDLib API error shape: a numeric code and a message.
The struct itself lives in the generated code; its two fields are fixed by
lib.rs (Display and code use e.code and e.message) and by the spec's API
error shape. -/
structure ApiError where
  code : Int
  message : String
deriving DecidableEq

/-- TdError from tdlib-rs/src/lib.rs (lines 30 to 43): either a TDLib API
error, or a deserialization failure carrying the expected Rust type's name,
the raw JSON payload, and the serde error (modelled by its message). -/
inductive TdError where
  | Api (e : ApiError)
  | Deserialization (expected_type : String) (payload : String) (error : String)
deriving DecidableEq

/-- TdError::code from tdlib-rs/src/lib.rs (lines 60 to 68): the API error
code, or -1 for deserialization errors. -/
def TdError.code : TdError → Int
  | TdError.Api e => e.code
  | TdError.Deserialization _ _ _ => -1

/-- The response-decoding code write_function emits (functions.rs lines 115 to
134), with the two serde decoders abstracted: `from_str_success` is
serde_json::from_str at the operation's result type, `from_str_error` is
serde_json::from_str at types::Error; a serde failure is modelled by its
message. For a unit-returning operation (result type Ok) only the error shape
is decoded and success carries no value (modelled as none); otherwise the
success type is decoded first, and on failure the error shape, and if both
fail the deserialization error carries the recorded expected type name, the
raw response verbatim, and the original success-decode failure. -/
def run_response_handler {α : Type} (h : ResponseHandler)
    (from_str_success : String → Except String α)
    (from_str_error : String → Except String ApiError)
    (response : String) : Except TdError (Option α) :=
  match h with
  | ResponseHandler.unitReturn =>
      match from_str_error response with
      | Except.ok api_error => Except.error (TdError.Api api_error)
      | Except.error _ => Except.ok none
  | ResponseHandler.nonUnitReturn expected =>
      match from_str_success response with
      | Except.ok result => Except.ok (some result)
      | Except.error e =>
          match from_str_error response with
          | Except.ok api_error => Except.error (TdError.Api api_error)
          | Except.error _ => Except.error (TdError.Deserialization expected response e)

/-! ## Top-level generator (tdlib-rs-gen/src/lib.rs) -/

/-- Modelled from the spec: write_enums_mod (enums.rs is not under src; the
spec places enum emission out of scope, "omitted for brevity"). Modelled as a
placeholder module with no content; both top-level entry points call it with
identical arguments, so nothing proved here depends on its body. -/
def write_enums_mod (_defs : List Definition) (_m : Metadata)
    (_config : GeneratorConfig) : List String :=
  []

/-- The fixed license header generate_rust_code_with_config writes first
(lib.rs lines 59 to 72), one entry per comment line. -/
def headerLines : List String :=
  ["// Copyright 2020 - developers of the grammers project.",
   "// Copyright 2021 - developers of the tdlib-rs project.",
   "// Copyright 2024 - developers of the tgt and tdlib-rs projects.",
   "//",
   "// Licensed under the Apache License, Version 2.0 <LICENSE-APACHE or",
   "// https://www.apache.org/licenses/LICENSE-2.0> or the MIT license",
   "// <LICENSE-MIT or https://opensource.org/licenses/MIT>, at your",
   "// option. This file may not be copied, modified, or distributed",
   "// except according to those terms."]

/-- Everything one generation run writes to the output sink, in order: the
header, then the types module, the enums module and the functions module
(lib.rs lines 59 to 78). -/
structure GeneratedOutput where
  header : List String
  types : List EmittedStruct
  enums : List String
  functions : List EmittedFunction
deriving DecidableEq

/-- generate_rust_code_with_config from tdlib-rs-gen/src/lib.rs (lines 54 to
80): write the header, run the metadata analysis once, then the three module
emitters in order. -/
def generate_rust_code_with_config (definitions : List Definition)
    (config : GeneratorConfig) : GeneratedOutput :=
  let metadata := Metadata.new definitions
  { header := headerLines
    types := write_types_mod definitions metadata config
    enums := write_enums_mod definitions metadata config
    functions := write_functions_mod definitions metadata config }

/-- generate_rust_code from tdlib-rs-gen/src/lib.rs (lines 39 to 52): the
compatibility entry point, delegating to generate_rust_code_with_config with
gen_bots_only_api as given and use_shared_string false. -/
def generate_rust_code (definitions : List Definition)
    (gen_bots_only_api : Bool) : GeneratedOutput :=
  generate_rust_code_with_config definitions ⟨gen_bots_only_api, false⟩

/-! ## Correlation runtime (tdlib-rs/src/lib.rs)

The runtime manipulates serde_json::Value; the inductive below embeds it with
integral numbers (the runtime only reads the correlation id and the client id,
both integers). -/

/-- serde_json::Value, restricted to integral numbers. -/
inductive Json where
  | null
  | bool (b : Bool)
  | num (n : Int)
  | str (s : String)
  | arr (elements : List Json)
  | obj (fields : List (String × Json))

/-- Value::get with a string key: some value for a present key of an object,
none otherwise. -/
def Json.get : Json → String → Option Json
  | Json.obj fields, key => fields.lookup key
  | _, _ => none

/-- Value::index with a string key (the `response["@client_id"]` read): the
value for a present key of an object, Null otherwise. -/
def Json.index (j : Json) (key : String) : Json :=
  (j.get key).getD Json.null

/-- Value::as_u64: the number when it is a non-negative integer in u64 range. -/
def Json.asU64 : Json → Option Nat
  | Json.num n => if 0 ≤ n ∧ n < 2 ^ 64 then some n.toNat else none
  | _ => none

/-- Value::as_i64: the number when it is an integer in i64 range. -/
def Json.asI64 : Json → Option Int
  | Json.num n => if -(2 ^ 63) ≤ n ∧ n < 2 ^ 63 then some n else none
  | _ => none

/-- Rust's `as u32` cast on a u64 value: truncation modulo 2 to the 32. -/
def wrapU32 (n : Nat) : Nat := n % 2 ^ 32

/-- Rust's `as i32` cast on an i64 value: two's-complement wrap. -/
def wrapI32 (n : Int) : Int := (n + 2 ^ 31) % 2 ^ 32 - 2 ^ 31

/-- The map update `request["@extra"] = v` performed by send_request on the
payload object's fields: replace the value under an existing key, or add the
entry. (The generated code always passes a json! object, so the object's field
list is the model of the request.) -/
def setField : List (String × Json) → String → Json → List (String × Json)
  | [], key, v => [(key, v)]
  | (k, w) :: rest, key, v =>
      if k == key then (k, v) :: rest else (k, w) :: setField rest key v

/-- The shared mutable state of the correlation engine (lib.rs lines 75 to
76): EXTRA_COUNTER, an AtomicU32 starting at 0, and the observer's table of
pending correlation ids. tdjson.rs and observer.rs are not under src; per the
spec the observer table maps each id to one pending waiter, so the model keeps
the set of pending ids. -/
structure CorrelationState where
  counter : Nat
  pending : List Nat

/-- The state at process start: counter 0, no waiters. -/
def initialCorrelationState : CorrelationState := ⟨0, []⟩

/-- One observable step of send_request, in the order the statements execute
(lib.rs lines 115 to 123). -/
inductive DispatchStep where
  | fetchAdd (returned : Nat)
  | stamp (id : Nat)
  | subscribe (id : Nat)
  | send (clientId : Int) (payload : List (String × Json))

/-- What one call to send_request produces: the updated shared state, the
stamped payload, and the ordered trace of its externally visible steps. -/
structure DispatchResult where
  state : CorrelationState
  stamped : List (String × Json)
  trace : List DispatchStep

/-- send_request from tdlib-rs/src/lib.rs (lines 115 to 123): fetch_add on
EXTRA_COUNTER returns the old value and stores it plus one (wrapping, the
counter is an AtomicU32); the id is stamped into the payload under "@extra";
OBSERVER.subscribe registers a pending waiter under the id; only then
tdjson::send transmits the payload. The trace records the four steps in
statement order. -/
def send_request (s : CorrelationState) (client_id : Int)
    (request : List (String × Json)) : DispatchResult :=
  let extra := s.counter
  let counter' := (s.counter + 1) % 2 ^ 32
  let request' := setField request "@extra" (Json.num (Int.ofNat extra))
  let pending' := extra :: s.pending
  { state := ⟨counter', pending'⟩
    stamped := request'
    trace := [DispatchStep.fetchAdd extra, DispatchStep.stamp extra,
              DispatchStep.subscribe extra, DispatchStep.send client_id request'] }

/-- The shared state after n dispatches from process start with no responses
delivered in between (each request leaves its waiter pending, as when no
response ever arrives). The client id and payload do not affect the shared
state. -/
def stateAfter : Nat → CorrelationState
  | 0 => initialCorrelationState
  | n + 1 => (send_request (stateAfter n) 0 []).state

/-- The correlation id drawn by dispatch number n (counting from 0) in the run
above: fetch_add returns the counter value before the increment. -/
def dispatchId (n : Nat) : Nat := (stateAfter n).counter

/-- One text yielded by the poll primitive, together with the result of
serde_json::from_str on it (none models text that is not valid JSON, on which
the unwrap at lib.rs line 91 panics). -/
structure PolledText where
  raw : String
  parsed : Option Json

/-- Everything one call to receive can do, from the caller's point of view.
notified and droppedEvent both make receive return None; droppedEvent is the
log-and-continue path (lib.rs line 105); panicked models a failed unwrap. -/
inductive ReceiveOutcome (U : Type) where
  | panicked
  | notified (extra : Nat) (raw : String)
  | event (u : U) (clientId : Int)
  | droppedEvent (raw : String)
  | nothing

/-- receive from tdlib-rs/src/lib.rs (lines 88 to 113), with the generated
Update enum abstracted to a type U and serde_json::from_value to a decoder
into U. If poll yields nothing, receive returns None. Otherwise the text must
parse as JSON (the unwrap at line 91). A message with "@extra" notifies the
observer with the id cast to u32 (unwrap at line 95 panics unless the id reads
as u64) and receive returns None. A message without "@extra" reads
"@client_id" (the unwrap at line 99 panics unless it reads as i64), then
decodes the message as an update: success yields the (update, client id) pair,
failure logs a warning and returns None. -/
def receive {U : Type} (from_value : Json → Except String U)
    (polled : Option PolledText) : ReceiveOutcome U :=
  match polled with
  | none => ReceiveOutcome.nothing
  | some t =>
      match t.parsed with
      | none => ReceiveOutcome.panicked
      | some response =>
          match response.get "@extra" with
          | some extra =>
              match extra.asU64 with
              | none => ReceiveOutcome.panicked
              | some e => ReceiveOutcome.notified (wrapU32 e) t.raw
          | none =>
              match (response.index "@client_id").asI64 with
              | none => ReceiveOutcome.panicked
              | some cid =>
                  match from_value response with
                  | Except.ok u => ReceiveOutcome.event u (wrapI32 cid)
                  | Except.error _ => ReceiveOutcome.droppedEvent t.raw

/-! ## Concrete fixtures used by witnesses and counterexamples -/

/-- Definition fixture: an operation getChat returning Chat (spec Scenario D). -/
def getChatDef : Definition :=
  ⟨"getChat", Category.Functions, ⟨"Chat", none⟩, [], "", false⟩

/-- Definition fixture: an operation ping returning Ok, the unit-returning
case (spec Scenarios B and C). -/
def pingDef : Definition :=
  ⟨"ping", Category.Functions, ⟨"Ok", none⟩, [], "", false⟩

/-- Fixture: a Type-category definition named n with the given parameters. -/
def mkTypeDef (n : String) (ps : List Parameter) : Definition :=
  ⟨n, Category.Types, ⟨n, none⟩, ps, "", false⟩

/-- Fixture: a non-optional parameter whose type is named t. -/
def reqParam (t : String) : Parameter :=
  ⟨"f", ⟨t, none⟩, false, false, ""⟩

/-- Fixture: an optional parameter whose type is named t. -/
def optionalParam (t : String) : Parameter :=
  ⟨"f", ⟨t, none⟩, true, false, ""⟩

/-- Fixture: an unrestricted parameter. -/
def plainParam : Parameter :=
  ⟨"id", ⟨"Int53", none⟩, false, false, ""⟩

/-- Fixture: a restricted (bots-only) parameter. -/
def botsOnlyParam : Parameter :=
  ⟨"secret", ⟨"Int32", none⟩, false, true, ""⟩

/-- Fixture: a definition with one plain and one restricted parameter. -/
def mixedParamsDef : Definition :=
  ⟨"sendThing", Category.Functions, ⟨"Ok", none⟩, [plainParam, botsOnlyParam], "", false⟩

/-- Fixture: a qualifying Type definition with one unrestricted parameter. -/
def chatDef : Definition :=
  ⟨"chat", Category.Types, ⟨"Chat", none⟩, [plainParam], "", false⟩

/-! ## Claims -/

/-- C1: For every generated operation whose result type is not the unit type,
decoding the raw response text attempts the expected success type first and,
on success, returns that value immediately; in particular, for any response
text that decodes both as the success type and as the API-error shape, the
operation returns success, never an error. -/
theorem C1_success_decode_first {α : Type} (d : Definition)
    (from_str_success : String → Except String α)
    (from_str_error : String → Except String ApiError)
    (response : String) (v : α) (a : ApiError)
    (hne : is_ok d.ty = false)
    (hs : from_str_success response = Except.ok v)
    (he : from_str_error response = Except.ok a) :
    run_response_handler (response_handler_of d) from_str_success from_str_error response
      = Except.ok (some v) := by
  simp [response_handler_of, hne, run_response_handler, hs]

/-- Witness for C1: for getChat returning Chat and a response that decodes as
the success type and also as an API error with code 429, the operation
returns the success value. -/
theorem C1_success_decode_first_witness :
    run_response_handler (α := Nat) (response_handler_of getChatDef)
      (fun _ => Except.ok 7) (fun _ => Except.ok ⟨429, "Too Many Requests"⟩) "resp"
      = Except.ok (some 7) :=
  C1_success_decode_first getChatDef
    (fun _ => Except.ok 7) (fun _ => Except.ok ⟨429, "Too Many Requests"⟩) "resp" 7
    ⟨429, "Too Many Requests"⟩ (by decide) rfl rfl

/-- C2: For every generated operation whose result type is the unit type, the
response text is decoded only against the API-error shape: when that decode
succeeds the operation fails with that API error, otherwise it succeeds with
no value; the success-type decoder is never consulted (the second conjunct:
the result is the same for any two success decoders), so a response decoding
as neither shape yields success. -/
theorem C2_unit_error_only {α : Type} (d : Definition)
    (from_str_success from_str_success' : String → Except String α)
    (from_str_error : String → Except String ApiError)
    (response : String)
    (hu : is_ok d.ty = true) :
    (run_response_handler (response_handler_of d) from_str_success from_str_error response
      = match from_str_error response with
        | Except.ok a => Except.error (TdError.Api a)
        | Except.error _ => Except.ok none) ∧
    run_response_handler (response_handler_of d) from_str_success from_str_error response
      = run_response_handler (response_handler_of d) from_str_success' from_str_error response := by
  constructor <;> simp [response_handler_of, hu, run_response_handler]

/-- Witness for C2: for ping returning Ok (spec Scenarios B and C), a response
carrying an API error with code 429 fails with that API error, and a response
decoding as neither shape succeeds with no value, even though the success
decoder would have succeeded. -/
theorem C2_unit_error_only_witness :
    run_response_handler (α := Nat) (response_handler_of pingDef)
        (fun _ => Except.ok 7) (fun _ => Except.ok ⟨429, "Too Many Requests"⟩) "resp"
      = Except.error (TdError.Api ⟨429, "Too Many Requests"⟩) ∧
    run_response_handler (α := Nat) (response_handler_of pingDef)
        (fun _ => Except.ok 7) (fun _ => Except.error "no error shape") "resp"
      = Except.ok none :=
  ⟨(C2_unit_error_only pingDef (fun _ => Except.ok 7) (fun _ => Except.ok 7)
      (fun _ => Except.ok ⟨429, "Too Many Requests"⟩) "resp" (by decide)).1,
   (C2_unit_error_only pingDef (fun _ => Except.ok 7) (fun _ => Except.ok 7)
      (fun _ => Except.error "no error shape") "resp" (by decide)).1⟩

/-- C3: For every non-unit operation and every response text that fails to
decode as the expected success type and also fails to decode as the API-error
shape, the operation fails with a deserialization error whose expected-type
field is the operation's result type name, whose stored payload is the raw
response text verbatim, and whose stored error is the original success-type
decode failure. -/
theorem C3_deserialization_error {α : Type} (d : Definition)
    (from_str_success : String → Except String α)
    (from_str_error : String → Except String ApiError)
    (response : String) (e m : String)
    (hne : is_ok d.ty = false)
    (hs : from_str_success response = Except.error e)
    (he : from_str_error response = Except.error m) :
    run_response_handler (response_handler_of d) from_str_success from_str_error response
      = Except.error (TdError.Deserialization (definitions_type_name d) response e) := by
  simp [response_handler_of, hne, run_response_handler, hs, he]

/-- Witness for C3 (spec Scenario D): getChat returning Chat, a response that
decodes as neither shape; the deserialization error carries expected-type
"Chat", the response verbatim, and the original success-decode failure. -/
theorem C3_deserialization_error_witness :
    run_response_handler (α := Nat) (response_handler_of getChatDef)
        (fun _ => Except.error "bad chat") (fun _ => Except.error "bad error") "some response"
      = Except.error (TdError.Deserialization "Chat" "some response" "bad chat") :=
  C3_deserialization_error getChatDef
    (fun _ => Except.error "bad chat") (fun _ => Except.error "bad error")
    "some response" "bad chat" "bad error" (by decide) rfl rfl

/-- C4: In every dispatch, the steps occur in this order: a fresh correlation
id is obtained from the shared counter, the id is stamped into the payload
under the reserved correlation key, a pending waiter is registered under that
id, and only then is the payload transmitted via the external submit
primitive; registration always completes before transmission (second
conjunct: the subscribe step sits at a strictly earlier trace position than
the send step). -/
theorem C4_registration_before_transmission (s : CorrelationState) (client_id : Int)
    (request : List (String × Json)) :
    (send_request s client_id request).trace
      = [DispatchStep.fetchAdd s.counter, DispatchStep.stamp s.counter,
         DispatchStep.subscribe s.counter,
         DispatchStep.send client_id (setField request "@extra" (Json.num (Int.ofNat s.counter)))] ∧
    ∃ i j : Nat, i < j ∧
      (send_request s client_id request).trace[i]? = some (DispatchStep.subscribe s.counter) ∧
      (send_request s client_id request).trace[j]?
        = some (DispatchStep.send client_id
            (setField request "@extra" (Json.num (Int.ofNat s.counter)))) :=
  ⟨rfl, 2, 3, by omega, rfl, rfl⟩

/-- The EXTRA_COUNTER value after n dispatches: the AtomicU32 wraps at 2 to
the 32. -/
theorem stateAfter_counter (n : Nat) : (stateAfter n).counter = n % 2 ^ 32 := by
  induction n with
  | zero => rfl
  | succ n ih =>
      show ((stateAfter n).counter + 1) % 2 ^ 32 = (n + 1) % 2 ^ 32
      rw [ih]
      omega

/-- The correlation id drawn by dispatch number n is n modulo 2 to the 32. -/
theorem dispatchId_eq (n : Nat) : dispatchId n = n % 2 ^ 32 :=
  stateAfter_counter n

/-- With no responses delivered, every id drawn stays registered: the id of an
earlier dispatch is still pending after later dispatches. -/
theorem dispatchId_mem_pending (k n : Nat) (h : k < n) :
    dispatchId k ∈ (stateAfter n).pending := by
  induction n with
  | zero => omega
  | succ n ih =>
      have hpend : (stateAfter (n + 1)).pending = dispatchId n :: (stateAfter n).pending := rfl
      rw [hpend]
      rcases Nat.lt_succ_iff_lt_or_eq.mp h with h' | h'
      · exact List.mem_cons_of_mem _ (ih h')
      · subst h'
        exact List.mem_cons_self _ _

/-- Counterexample to C5 as stated: the shared counter is a wrapping 32-bit
atomic, so across 2 to the 32 plus 1 dispatches the ids are not pairwise
distinct — dispatch number 2 to the 32 draws the same id as dispatch number 0,
and (with no response delivered) that id's waiter is still pending when it is
reused. -/
theorem C5_counterexample :
    dispatchId (2 ^ 32) = dispatchId 0 ∧ (2 ^ 32 : Nat) ≠ 0 ∧
    dispatchId 0 ∈ (stateAfter (2 ^ 32)).pending := by
  refine ⟨?_, by positivity, dispatchId_mem_pending 0 (2 ^ 32) (by positivity)⟩
  rw [dispatchId_eq, dispatchId_eq]
  simp

/-- C5 as amended: across any N dispatches with N at most 2 to the 32, the ids
drawn are pairwise distinct and strictly increasing (so none is reused while
its waiter is pending within that window); only after the 32-bit counter wraps
can an id recur. -/
theorem C5_amended_ids_distinct (i j : Nat) (hij : i < j) (hj : j < 2 ^ 32) :
    dispatchId i < dispatchId j ∧ dispatchId i ≠ dispatchId j := by
  have hi : dispatchId i = i := by
    rw [dispatchId_eq]
    exact Nat.mod_eq_of_lt (by omega)
  have hj' : dispatchId j = j := by
    rw [dispatchId_eq]
    exact Nat.mod_eq_of_lt hj
  rw [hi, hj']
  exact ⟨hij, Nat.ne_of_lt hij⟩

/-- Witness for the amended C5 at concrete dispatch numbers 1 and 2. -/
theorem C5_amended_ids_distinct_witness :
    dispatchId 1 < dispatchId 2 ∧ dispatchId 1 ≠ dispatchId 2 :=
  C5_amended_ids_distinct 1 2 (by omega) (by norm_num)

/-- Counterexample to C6 as stated: a polled text that is valid JSON, carries
neither "@extra" nor "@client_id", and fails to decode as an update makes
receive panic (the unwrap on as_i64 at lib.rs line 99) instead of logging the
failure and returning None. -/
theorem C6_counterexample :
    receive (U := Unit) (fun _ => Except.error "unknown response")
        (some ⟨"response text", some (Json.obj [("foo", Json.num 1)])⟩)
      = ReceiveOutcome.panicked := rfl

/-- C6 as amended: for a polled text that is valid JSON, lacks the correlation
key, and carries a client-identifier readable as a 64-bit integer, a failure
to decode it as an event is non-fatal: the message is logged and discarded and
receive returns None (the droppedEvent outcome), surfacing nothing to request
callers; messages that are not valid JSON or lack such a client identifier
panic instead. -/
theorem C6_amended_event_decode_nonfatal {U : Type} (from_value : Json → Except String U)
    (raw : String) (j : Json) (cid : Int) (msg : String)
    (hextra : j.get "@extra" = none)
    (hcid : (j.index "@client_id").asI64 = some cid)
    (hdec : from_value j = Except.error msg) :
    receive from_value (some ⟨raw, some j⟩) = ReceiveOutcome.droppedEvent raw := by
  simp [receive, hextra, hcid, hdec]

/-- Witness for the amended C6: a message with an integer client id that fails
to decode as an update is dropped and receive returns None. -/
theorem C6_amended_event_decode_nonfatal_witness :
    receive (U := Unit) (fun _ => Except.error "unknown response")
        (some ⟨"response text", some (Json.obj [("@client_id", Json.num 3)])⟩)
      = ReceiveOutcome.droppedEvent "response text" :=
  C6_amended_event_decode_nonfatal (fun _ => Except.error "unknown response")
    "response text" (Json.obj [("@client_id", Json.num 3)]) 3 "unknown response"
    rfl (by decide) rfl

/-- C7: For every definition and every configuration with the restricted
capability disabled, the parameters the Structure Emitter omits from the
emitted struct's fields are exactly the parameters the Operation Emitter omits
from the call signature and from the payload construction: the three sites
filter with the same restricted-parameter predicate, field-for-field (the
filters agree as ordered lists, hence as sets). -/
theorem C7_filter_consistency (d : Definition) (config : GeneratorConfig)
    (_h : config.gen_bots_only_api = false) :
    struct_omitted_params d config = signature_omitted_params d config ∧
    signature_omitted_params d config = payload_omitted_params d config :=
  ⟨rfl, rfl⟩

/-- Witness for C7 at a definition with one plain and one restricted
parameter under the capability-disabled configuration. -/
theorem C7_filter_consistency_witness :
    struct_omitted_params mixedParamsDef ⟨false, false⟩
      = signature_omitted_params mixedParamsDef ⟨false, false⟩ ∧
    signature_omitted_params mixedParamsDef ⟨false, false⟩
      = payload_omitted_params mixedParamsDef ⟨false, false⟩ :=
  C7_filter_consistency mixedParamsDef ⟨false, false⟩ rfl

/-- C8: The Structure Emitter emits a struct for a definition (among
definitions with pairwise distinct names) if and only if the definition is
Type-category, its type name is not special-cased (Bool, Bytes, Int32, Int53,
Int64, Ok), it has at least one parameter, and it is not excluded by the
restricted-capability rule; and write_struct either skips a definition or
emits exactly the struct whose Default-derive flag is the metadata's
default-derivability verdict for that definition. -/
theorem C8_struct_emission (defs : List Definition) (m : Metadata)
    (config : GeneratorConfig) (d : Definition)
    (hmem : d ∈ defs)
    (hnodup : (defs.map Definition.name).Nodup) :
    ((write_types_mod defs m config).any (fun s => s.sourceName == d.name) = true ↔
      (d.category = Category.Types ∧ ignore_type d.ty = false ∧ d.params ≠ [] ∧
        ¬(d.is_for_bots_only = true ∧ config.gen_bots_only_api = false))) ∧
    (write_struct d m config = none ∨
      write_struct d m config = some
        ⟨d.name, definitions_type_name d, m.can_def_implement_default d,
         (struct_included_params d config).map (fun p => ⟨p.name, p.ty.name, p.is_optional⟩)⟩) := by
  constructor
  · constructor
    · intro hany
      obtain ⟨s, hs, hname⟩ := List.any_eq_true.mp hany
      obtain ⟨d', hd', hws⟩ := List.mem_filterMap.mp hs
      obtain ⟨hd'mem, hd'cond⟩ := List.mem_filter.mp hd'
      have hcfalse : (d'.is_for_bots_only && !config.gen_bots_only_api) = false := by
        by_contra hc
        rw [Bool.not_eq_false] at hc
        simp [write_struct, hc] at hws
      have hsrc : s.sourceName = d'.name := by
        rw [write_struct, hcfalse] at hws
        simp at hws
        rw [← hws]
      have hnames : d'.name = d.name := by
        rw [← hsrc]
        exact beq_iff_eq.mp hname
      have hdd : d' = d := List.inj_on_of_nodup_map hnodup hd'mem hmem hnames
      subst hdd
      simp only [Bool.and_eq_true, beq_iff_eq, Bool.not_eq_true'] at hd'cond
      refine ⟨hd'cond.1.1, hd'cond.1.2, ?_, ?_⟩
      · intro hempty
        rw [hempty] at hd'cond
        simp at hd'cond
      · intro ⟨hbots, hflag⟩
        rw [hbots, hflag] at hcfalse
        simp at hcfalse
    · intro ⟨hcat, hign, hps, hrest⟩
      apply List.any_eq_true.mpr
      have hcfalse : (d.is_for_bots_only && !config.gen_bots_only_api) = false := by
        cases hb : d.is_for_bots_only with
        | false => simp
        | true =>
            cases hg : config.gen_bots_only_api with
            | false => exact absurd ⟨hb, hg⟩ hrest
            | true => simp [hg]
      refine ⟨⟨d.name, definitions_type_name d, m.can_def_implement_default d,
        (struct_included_params d config).map (fun p => ⟨p.name, p.ty.name, p.is_optional⟩)⟩,
        List.mem_filterMap.mpr ⟨d, List.mem_filter.mpr ⟨hmem, ?_⟩, ?_⟩, by simp⟩
      · simp [hcat, hign, hps]
      · rw [write_struct, hcfalse]
        simp
  · rw [write_struct]
    cases hc : (d.is_for_bots_only && !config.gen_bots_only_api) with
    | true => exact Or.inl (by simp)
    | false => exact Or.inr (by simp)

/-- Witness for C8: the qualifying Type definition chat produces an emitted
struct keyed to it. -/
theorem C8_struct_emission_witness :
    (write_types_mod [chatDef] (Metadata.new [chatDef]) ⟨false, false⟩).any
      (fun s => s.sourceName == chatDef.name) = true :=
  (C8_struct_emission [chatDef] (Metadata.new [chatDef]) ⟨false, false⟩ chatDef
    (by decide) (by decide)).1.mpr
    ⟨rfl, by decide, by decide, by decide⟩

/-- C10: For every definition list and boolean flag, generate_rust_code
produces exactly the output of generate_rust_code_with_config at the
configuration with gen_bots_only_api equal to the flag and use_shared_string
false; the source entry point delegates with exactly that configuration. -/
theorem C10_entry_point_equivalence (definitions : List Definition) (flag : Bool) :
    generate_rust_code definitions flag
      = generate_rust_code_with_config definitions ⟨flag, false⟩ := rfl

/-- C9: The default-derivability analysis terminates on every definition set,
including cyclic ones (it is defined by well-founded recursion, total without
fuel), and computes: a Type whose single non-optional field references itself
directly is not default-derivable; two Types forming a mutual cycle of
non-optional fields are not default-derivable; a Type whose sole field is
optional is default-derivable; a Type with zero fields is default-derivable;
a reference to a built-in scalar or the unit type is default-derivable. -/
theorem C9_default_derivability (a b n t : String)
    (ha : builtinDefaultNames.contains a = false)
    (hbn : builtinDefaultNames.contains b = false)
    (hab : a ≠ b) :
    (Metadata.new [mkTypeDef a [reqParam a]]).can_def_implement_default
        (mkTypeDef a [reqParam a]) = false ∧
    (Metadata.new [mkTypeDef a [reqParam b], mkTypeDef b [reqParam a]]).can_def_implement_default
        (mkTypeDef a [reqParam b]) = false ∧
    (Metadata.new [mkTypeDef n [optionalParam t]]).can_def_implement_default
        (mkTypeDef n [optionalParam t]) = true ∧
    (Metadata.new [mkTypeDef n []]).can_def_implement_default (mkTypeDef n []) = true ∧
    (∀ (defs : List Definition) (inProgress : List String),
      can_type_default defs inProgress "Int64" = true ∧
      can_type_default defs inProgress "Ok" = true) := by
  have ha' : a ∉ builtinDefaultNames := by simpa using ha
  have hbn' : b ∉ builtinDefaultNames := by simpa using hbn
  refine ⟨?_, ?_, ?_, ?_, ?_⟩
  · show can_params_default [mkTypeDef a [reqParam a]] [a] [reqParam a] = false
    rw [can_params_default, can_type_default]
    simp [ha', mkTypeDef, reqParam]
  · show can_params_default [mkTypeDef a [reqParam b], mkTypeDef b [reqParam a]] [a]
      [reqParam b] = false
    have habf : (a == b) = false := beq_eq_false_iff_ne.mpr hab
    have hbaf : (b == a) = false := beq_eq_false_iff_ne.mpr (Ne.symm hab)
    have hin : can_type_default [mkTypeDef a [reqParam b], mkTypeDef b [reqParam a]]
        [b, a] a = false := by
      rw [can_type_default]
      simp [ha']
    have hps : can_params_default [mkTypeDef a [reqParam b], mkTypeDef b [reqParam a]]
        [b, a] [reqParam a] = false := by
      rw [can_params_default]
      rw [show (reqParam a).is_optional = false from rfl]
      rw [show (reqParam a).ty.name = a from rfl]
      rw [hin]
      simp
    have hfind : List.find? (fun d => d.name == b)
        [mkTypeDef a [reqParam b], mkTypeDef b [reqParam a]]
        = some (mkTypeDef b [reqParam a]) := by
      simp [List.find?_cons, mkTypeDef, habf]
    have hct : can_type_default [mkTypeDef a [reqParam b], mkTypeDef b [reqParam a]]
        [a] b = false := by
      rw [can_type_default]
      rw [dif_neg (show ¬(builtinDefaultNames.contains b = true) by simpa using hbn')]
      rw [dif_neg (show ¬(List.contains [a] b = true) by
        simp only [List.contains_cons]
        simp [Ne.symm hab])]
      split
      · rfl
      · next d heq =>
          rw [hfind] at heq
          cases heq
          exact hps
    rw [can_params_default]
    rw [show (reqParam b).is_optional = false from rfl]
    rw [show (reqParam b).ty.name = b from rfl]
    rw [hct]
    simp
  · show can_params_default [mkTypeDef n [optionalParam t]] [n] [optionalParam t] = true
    rw [can_params_default]
    simp [optionalParam, can_params_default]
  · show can_params_default [mkTypeDef n []] [n] [] = true
    rw [can_params_default]
  · intro defs inProgress
    constructor <;> (rw [can_type_default]; simp [builtinDefaultNames])

/-- Witness for C9 at concrete type names: the direct self-cycle ChatA and the
mutual cycle between ChatA and ChatB are not default-derivable; the
sole-optional-field and zero-field types are. -/
theorem C9_default_derivability_witness :
    (Metadata.new [mkTypeDef "ChatA" [reqParam "ChatA"]]).can_def_implement_default
        (mkTypeDef "ChatA" [reqParam "ChatA"]) = false ∧
    (Metadata.new [mkTypeDef "ChatA" [reqParam "ChatB"],
        mkTypeDef "ChatB" [reqParam "ChatA"]]).can_def_implement_default
        (mkTypeDef "ChatA" [reqParam "ChatB"]) = false ∧
    (Metadata.new [mkTypeDef "ChatC" [optionalParam "ChatD"]]).can_def_implement_default
        (mkTypeDef "ChatC" [optionalParam "ChatD"]) = true ∧
    (Metadata.new [mkTypeDef "ChatC" []]).can_def_implement_default
        (mkTypeDef "ChatC" []) = true :=
  have h := C9_default_derivability "ChatA" "ChatB" "ChatC" "ChatD"
    (by decide) (by decide) (by decide)
  ⟨h.1, h.2.1, h.2.2.1, h.2.2.2.1⟩
